import Mathlib

/-!
Shallow embedding of the bazaar inventory system (src/models.py, src/database.py,
src/api.py, src/main.py).

Modelling conventions:
* SQLite tables are Lean lists of row structures, in insertion (rowid) order.
  With no deletes in scope, the next rowid of a table is `length + 1`
  (`stock_movements` uses AUTOINCREMENT; the other tables never see deletes).
* Timestamps (`datetime.now().isoformat()`) are opaque `Nat` values supplied as a
  `now` argument; ISO-8601 string comparison agrees with numeric comparison of
  the instants, so ORDER BY created_at works on these.
* `cursor.lastrowid` is modelled at the connection level (`sqlite3_last_insert_rowid`):
  every INSERT into any table sets it to the new row's rowid; SELECT and UPDATE
  statements leave it unchanged.  This matches the Python sqlite3 binding in both
  generations of its semantics (lastrowid kept across non-INSERT statements).
* Python `dict` results keep their shape: `Database.get_stock_level` can return a
  dict without a `last_updated` key, modelled with `Option`.
* FastAPI adapter functions return the (possibly updated) database state together
  with `Except`: `HTTPException` raises become `Except.error`.
-/

namespace Bazaar

/-- Movement-type vocabulary of src/models.py (`MovementType`, a str enum). -/
inductive MovementType where
  | STOCK_IN
  | SALE
  | MANUAL_REMOVAL
  deriving DecidableEq, Repr

/-- Input payload for recording a movement: the fields of models.StockMovement
(equivalently api.StockMovementCreate) that the writer uses; the id is assigned
by the database, the timestamp is passed separately as `now`. -/
structure StockMovement where
  product_id : Int
  store_id : Int := 1
  quantity : Int
  movement_type : MovementType
  notes : Option String := none
  deriving DecidableEq, Repr

/-- Row of the `products` table (src/database.py, initialize_db). -/
structure ProductRow where
  id : Nat
  name : String
  description : String
  sku : String
  created_at : Nat
  updated_at : Nat
  deriving DecidableEq, Repr

/-- Row of the `stock_movements` table. -/
structure MovementRow where
  id : Nat
  product_id : Int
  store_id : Int
  quantity : Int
  movement_type : MovementType
  notes : Option String
  created_at : Nat
  deriving DecidableEq, Repr

/-- Row of the `stock_levels` table.  The table's PRIMARY KEY is the composite
(product_id, store_id), which is not an INTEGER PRIMARY KEY, so SQLite keeps an
implicit rowid for each row; `rowid` records it because `sqlite3_last_insert_rowid`
reports it after the INSERT branch of record_stock_movement. -/
structure LevelRow where
  rowid : Nat
  product_id : Int
  store_id : Int
  quantity : Int
  last_updated : Nat
  deriving DecidableEq, Repr

/-- The database state: the three tables the claims touch, plus the connection's
last-insert-rowid register.  The `stores` table is never read by any operation in
scope and is omitted. -/
structure DBState where
  products : List ProductRow
  movements : List MovementRow
  levels : List LevelRow
  last_insert_rowid : Nat
  deriving DecidableEq, Repr

/-- Freshly initialized empty database. -/
def emptyDB : DBState :=
  { products := [], movements := [], levels := [], last_insert_rowid := 0 }

/-- View of an Except value as a sum, to derive decidable equality. -/
def exceptToSum {ε α : Type} : Except ε α → ε ⊕ α
  | Except.error e => Sum.inl e
  | Except.ok a => Sum.inr a

instance {ε α : Type} [DecidableEq ε] [DecidableEq α] : DecidableEq (Except ε α) := fun a b =>
  decidable_of_iff (exceptToSum a = exceptToSum b)
    (by cases a <;> cases b <;> simp [exceptToSum])

/-- Lookup of a stock_levels row by its composite key, as in the
SELECT ... WHERE product_id = ? AND store_id = ? queries. -/
def find_level (levels : List LevelRow) (p s : Int) : Option LevelRow :=
  levels.find? (fun r => r.product_id == p && r.store_id == s)

/-- The signed delta applied to the stock level (src/database.py lines 141-144):
`quantity_change = movement.quantity`, negated for SALE and MANUAL_REMOVAL. -/
def quantity_change (m : StockMovement) : Int :=
  if m.movement_type == MovementType.SALE || m.movement_type == MovementType.MANUAL_REMOVAL then
    -m.quantity
  else
    m.quantity

/-- Next rowid of the stock_movements table (AUTOINCREMENT, no deletes). -/
def next_movement_rowid (st : DBState) : Nat := st.movements.length + 1

/-- Next implicit rowid of the stock_levels table (no deletes). -/
def next_level_rowid (st : DBState) : Nat := st.levels.length + 1

/-- The stock_movements row inserted by record_stock_movement (src/database.py
lines 124-139), with its AUTOINCREMENT id. -/
def movement_row (st : DBState) (m : StockMovement) (now : Nat) : MovementRow :=
  { id := next_movement_rowid st, product_id := m.product_id, store_id := m.store_id,
    quantity := m.quantity, movement_type := m.movement_type,
    notes := m.notes, created_at := now }

/-- Effect of the UPDATE branch (src/database.py lines 157-166) on one
stock_levels row: SET quantity = quantity + delta, last_updated = now
WHERE product_id = ? AND store_id = ?. -/
def apply_level_delta (m : StockMovement) (now : Nat) (r : LevelRow) : LevelRow :=
  if r.product_id == m.product_id && r.store_id == m.store_id then
    { r with quantity := r.quantity + quantity_change m, last_updated := now }
  else r

/-- The stock_levels row created by the INSERT branch (src/database.py
lines 167-176), with its implicit rowid. -/
def new_level_row (st : DBState) (m : StockMovement) (now : Nat) : LevelRow :=
  { rowid := next_level_rowid st, product_id := m.product_id, store_id := m.store_id,
    quantity := quantity_change m, last_updated := now }

/-- Database.record_stock_movement (src/database.py lines 119-179): insert the
movement row, then upsert the stock level by the signed delta; returns the new
state together with the Python function's return value `cursor.lastrowid`.
After the UPDATE branch lastrowid still holds the movement insert's rowid; after
the INSERT branch it holds the rowid of the freshly inserted stock_levels row. -/
def record_stock_movement (st : DBState) (m : StockMovement) (now : Nat) : DBState × Nat :=
  let mid := next_movement_rowid st
  let st1 : DBState :=
    { st with movements := st.movements ++ [movement_row st m now], last_insert_rowid := mid }
  match find_level st1.levels m.product_id m.store_id with
  | some _ =>
      ({ st1 with levels := st1.levels.map (apply_level_delta m now) }, mid)
  | none =>
      let lrid := next_level_rowid st1
      ({ st1 with
           levels := st1.levels ++ [new_level_row st1 m now],
           last_insert_rowid := lrid }, lrid)

/-- Shape of the dict returned by Database.get_stock_level: when no row exists the
fallback dict `{"product_id": ..., "store_id": ..., "quantity": 0}` has no
`last_updated` key, hence the `Option`. -/
structure StockLevelDict where
  product_id : Int
  store_id : Int
  quantity : Int
  last_updated : Option Nat
  deriving DecidableEq, Repr

/-- Database.get_stock_level (src/database.py lines 181-196). -/
def get_stock_level (st : DBState) (p : Int) (s : Int := 1) : StockLevelDict :=
  match find_level st.levels p s with
  | some r =>
      { product_id := r.product_id, store_id := r.store_id,
        quantity := r.quantity, last_updated := some r.last_updated }
  | none => { product_id := p, store_id := s, quantity := 0, last_updated := none }

/-- Python truthiness of an optional int filter (`if product_id:`): the filter is
applied only when the value is present AND nonzero. -/
def passes_int_filter (f : Option Int) (v : Int) : Bool :=
  match f with
  | none => true
  | some x => if x == 0 then true else v == x

/-- Truthiness of the movement_type filter: every MovementType is a nonempty
string, hence truthy whenever present. -/
def passes_type_filter (f : Option MovementType) (t : MovementType) : Bool :=
  match f with
  | none => true
  | some x => t == x

/-- The WHERE clause built by Database.get_stock_movements (src/database.py
lines 206-219), including the Python truthiness of the `if` guards. -/
def row_matches (pid sid : Option Int) (mt : Option MovementType) (r : MovementRow) : Bool :=
  passes_int_filter pid r.product_id && passes_int_filter sid r.store_id &&
    passes_type_filter mt r.movement_type

/-- Insert one row into a list kept in descending created_at order. -/
def insert_desc (r : MovementRow) : List MovementRow → List MovementRow
  | [] => [r]
  | x :: xs => if r.created_at ≤ x.created_at then x :: insert_desc r xs else r :: x :: xs

/-- ORDER BY created_at DESC, as an insertion sort (SQLite guarantees only the
ordering, which any sort by the key refines). -/
def sort_desc : List MovementRow → List MovementRow
  | [] => []
  | x :: xs => insert_desc x (sort_desc xs)

/-- Database.get_stock_movements (src/database.py lines 198-224): filter by the
truthy filters, then ORDER BY created_at DESC. -/
def get_stock_movements (st : DBState) (product_id : Option Int := none)
    (store_id : Option Int := none) (movement_type : Option MovementType := none) :
    List MovementRow :=
  sort_desc (st.movements.filter (row_matches product_id store_id movement_type))

/-- Database.get_product (SELECT * FROM products WHERE id = ?). -/
def get_product (st : DBState) (pid : Int) : Option ProductRow :=
  st.products.find? (fun p => (p.id : Int) == pid)

/-- Database.get_product_by_sku (SELECT * FROM products WHERE sku = ?). -/
def get_product_by_sku (st : DBState) (sku : String) : Option ProductRow :=
  st.products.find? (fun p => p.sku == sku)

/-- Next rowid of the products table. -/
def next_product_rowid (st : DBState) : Nat := st.products.length + 1

/-- Database.add_product (src/database.py lines 77-91): INSERT and return lastrowid. -/
def add_product (st : DBState) (name description sku : String) (now : Nat) : DBState × Nat :=
  let pid := next_product_rowid st
  let row : ProductRow :=
    { id := pid, name := name, description := description, sku := sku,
      created_at := now, updated_at := now }
  ({ st with products := st.products ++ [row], last_insert_rowid := pid }, pid)

/-- The HTTPException outcomes the adapters in src/api.py can raise. -/
inductive ApiError where
  | product_not_found
  | duplicate_sku
  | insufficient_stock (available : Int)
  | retrieve_failed
  deriving DecidableEq, Repr

/-- api.create_product (src/api.py lines 67-77): reject an existing SKU with 400,
otherwise insert and return the stored row. -/
def create_product (st : DBState) (name description sku : String) (now : Nat) :
    DBState × Except ApiError ProductRow :=
  match get_product_by_sku st sku with
  | some _ => (st, Except.error ApiError.duplicate_sku)
  | none =>
      let res := add_product st name description sku now
      match get_product res.1 (res.2 : Int) with
      | some row => (res.1, Except.ok row)
      | none => (res.1, Except.error ApiError.retrieve_failed)

/-- The tail of api.create_stock_movement after validation (src/api.py
lines 109-119): record the movement, then look the created movement up by the
returned id among the product's movements; 500 if it is not found. -/
def create_stock_movement_write (st : DBState) (m : StockMovement) (now : Nat) :
    DBState × Except ApiError MovementRow :=
  let res := record_stock_movement st m now
  match (get_stock_movements res.1 (some m.product_id) none none).find?
      (fun r => r.id == res.2) with
  | some row => (res.1, Except.ok row)
  | none => (res.1, Except.error ApiError.retrieve_failed)

/-- api.create_stock_movement (src/api.py lines 93-119): validate the product
exists; for SALE and MANUAL_REMOVAL read the current stock level and reject with
400 when it is below the requested quantity; then write.  Note there is no check
of quantity positivity anywhere on this path. -/
def create_stock_movement (st : DBState) (m : StockMovement) (now : Nat) :
    DBState × Except ApiError MovementRow :=
  match get_product st m.product_id with
  | none => (st, Except.error ApiError.product_not_found)
  | some _ =>
      if m.movement_type == MovementType.SALE
          || m.movement_type == MovementType.MANUAL_REMOVAL then
        let sl := get_stock_level st m.product_id m.store_id
        if sl.quantity < m.quantity then
          (st, Except.error (ApiError.insufficient_stock sl.quantity))
        else
          create_stock_movement_write st m now
      else
        create_stock_movement_write st m now

/-- api.get_stock_level endpoint (src/api.py lines 132-143): 404 for an unknown
product, otherwise return the Database.get_stock_level dict. -/
def get_stock_level_endpoint (st : DBState) (pid : Int) (sid : Int := 1) :
    Except ApiError StockLevelDict :=
  match get_product st pid with
  | none => Except.error ApiError.product_not_found
  | some _ => Except.ok (get_stock_level st pid sid)

/-- api.StockLevelResponse (src/api.py lines 54-58): the response contract
requires a last_updated string. -/
structure StockLevelResponse where
  product_id : Int
  store_id : Int
  quantity : Int
  last_updated : Nat
  deriving DecidableEq, Repr

/-- Pydantic validation of a get_stock_level dict against StockLevelResponse:
succeeds exactly when the dict carries a last_updated value. -/
def to_stock_level_response (d : StockLevelDict) : Option StockLevelResponse :=
  match d.last_updated with
  | some t =>
      some { product_id := d.product_id, store_id := d.store_id,
             quantity := d.quantity, last_updated := t }
  | none => none

/-- Signed contribution of a recorded movement row, as in the ledger arithmetic:
+quantity for STOCK_IN, -quantity for SALE and MANUAL_REMOVAL. -/
def movement_delta (r : MovementRow) : Int :=
  if r.movement_type == MovementType.SALE || r.movement_type == MovementType.MANUAL_REMOVAL then
    -r.quantity
  else
    r.quantity

/-- Signed sum of all recorded movement rows for a (product_id, store_id) pair. -/
def signed_sum (rows : List MovementRow) (p s : Int) : Int :=
  ((rows.filter (fun r => r.product_id == p && r.store_id == s)).map movement_delta).sum

/-- Run a finite sequence of record_stock_movement calls (each with its
timestamp), threading the state. -/
def apply_movements (st : DBState) : List (StockMovement × Nat) → DBState
  | [] => st
  | op :: rest => apply_movements (record_stock_movement st op.1 op.2).1 rest

/-- The central ledger invariant: every (product_id, store_id) pair's stored
stock level equals the signed sum of its recorded movement rows (absent rows
read as 0 through get_stock_level's fallback). -/
def ledger_invariant (st : DBState) : Prop :=
  ∀ p s : Int, (get_stock_level st p s).quantity = signed_sum st.movements p s

/-- A second reading of the movement filters, written after the words of the spec:
each supplied filter must hold of the row, with no truthiness exception for 0. -/
def spec_filter_matches (pid sid : Option Int) (mt : Option MovementType)
    (r : MovementRow) : Bool :=
  (match pid with
   | none => true
   | some x => r.product_id == x) &&
  (match sid with
   | none => true
   | some x => r.store_id == x) &&
  (match mt with
   | none => true
   | some x => r.movement_type == x)

/-!
Interleaving model for concurrent create_stock_movement requests.  Each HTTP
request runs api.create_stock_movement on its own connection; its sufficiency
check (a SELECT) and its record_stock_movement write (one committed transaction)
are two separate atomic steps against the shared database, with nothing stopping
another request's steps from landing between them.
-/

/-- Progress of one in-flight SALE request through the adapter's check-then-act
sequence: ready to run its sufficiency check, check passed (write still pending),
check failed (InsufficientStock returned), or write committed. -/
inductive ReqPC where
  | ready
  | passed
  | failed
  | committed
  deriving DecidableEq, Repr

/-- Run one atomic step of a SALE request: from ready, the sufficiency check of
api.create_stock_movement (src/api.py lines 101-107) reads the shared database;
from passed, Database.record_stock_movement commits its write. -/
def advance_sale (m : StockMovement) (now : Nat) (db : DBState) : ReqPC → DBState × ReqPC
  | ReqPC.ready =>
      if (get_stock_level db m.product_id m.store_id).quantity < m.quantity then
        (db, ReqPC.failed)
      else
        (db, ReqPC.passed)
  | ReqPC.passed => ((record_stock_movement db m now).1, ReqPC.committed)
  | pc => (db, pc)

/-- Shared database plus the progress of two concurrent requests. -/
structure RaceState where
  db : DBState
  pc1 : ReqPC
  pc2 : ReqPC
  deriving DecidableEq, Repr

/-- Scheduler choice: advance request 1 or request 2 by one atomic step. -/
inductive RaceAction where
  | step1
  | step2
  deriving DecidableEq, Repr

/-- One scheduled step of the two-request system. -/
def race_step (m1 m2 : StockMovement) (now : Nat) (s : RaceState) : RaceAction → RaceState :=
  fun a =>
    match a with
    | RaceAction.step1 =>
        let r := advance_sale m1 now s.db s.pc1
        { s with db := r.1, pc1 := r.2 }
    | RaceAction.step2 =>
        let r := advance_sale m2 now s.db s.pc2
        { s with db := r.1, pc2 := r.2 }

/-- Run a schedule of interleaved steps. -/
def run_race (m1 m2 : StockMovement) (now : Nat) (s : RaceState)
    (acts : List RaceAction) : RaceState :=
  acts.foldl (race_step m1 m2 now) s

/-! Concrete fixtures used by closed theorems. -/

def prodRow1 : ProductRow :=
  { id := 1, name := "Widget", description := "first product", sku := "SKU1",
    created_at := 0, updated_at := 0 }

def prodRow2 : ProductRow :=
  { id := 2, name := "Gadget", description := "second product", sku := "SKU2",
    created_at := 0, updated_at := 0 }

/-- Database holding two products and no stock activity. -/
def stTwoProducts : DBState :=
  { products := [prodRow1, prodRow2], movements := [], levels := [], last_insert_rowid := 2 }

def mvStockIn (pid q : Int) : StockMovement :=
  { product_id := pid, quantity := q, movement_type := MovementType.STOCK_IN }

def mvSale (pid q : Int) : StockMovement :=
  { product_id := pid, quantity := q, movement_type := MovementType.SALE }

/-- Database holding product 1 with a recorded STOCK_IN of 5 (stock level 5). -/
def stLevelFive : DBState :=
  { products := [prodRow1],
    movements := [{ id := 1, product_id := 1, store_id := 1, quantity := 5,
                    movement_type := MovementType.STOCK_IN, notes := none, created_at := 0 }],
    levels := [{ rowid := 1, product_id := 1, store_id := 1, quantity := 5, last_updated := 0 }],
    last_insert_rowid := 1 }

/-- Database holding product 1 with a recorded STOCK_IN of 1 (stock level 1). -/
def stLevelOne : DBState :=
  { products := [prodRow1],
    movements := [{ id := 1, product_id := 1, store_id := 1, quantity := 1,
                    movement_type := MovementType.STOCK_IN, notes := none, created_at := 0 }],
    levels := [{ rowid := 1, product_id := 1, store_id := 1, quantity := 1, last_updated := 0 }],
    last_insert_rowid := 1 }

/-- First call of the id-assignment scenario: STOCK_IN 5 for product 1 on the
two-product database. -/
def recFirst : DBState × Nat := record_stock_movement stTwoProducts (mvStockIn 1 5) 1

/-- Second call: STOCK_IN 3 for product 1 (its stock_levels row now exists). -/
def recSecond : DBState × Nat := record_stock_movement recFirst.1 (mvStockIn 1 3) 2

/-- Third call: STOCK_IN 4 for product 2, whose stock_levels row is created by
this very call. -/
def recThird : DBState × Nat := record_stock_movement recSecond.1 (mvStockIn 2 4) 3

/-! Helper lemmas about the embedded operations. -/

theorem record_stock_movement_of_find_some (st : DBState) (m : StockMovement) (now : Nat)
    (r0 : LevelRow) (hf : find_level st.levels m.product_id m.store_id = some r0) :
    record_stock_movement st m now =
      ({ products := st.products,
         movements := st.movements ++ [movement_row st m now],
         levels := st.levels.map (apply_level_delta m now),
         last_insert_rowid := next_movement_rowid st }, next_movement_rowid st) := by
  unfold record_stock_movement
  simp [hf]

theorem record_stock_movement_of_find_none (st : DBState) (m : StockMovement) (now : Nat)
    (hf : find_level st.levels m.product_id m.store_id = none) :
    record_stock_movement st m now =
      ({ products := st.products,
         movements := st.movements ++ [movement_row st m now],
         levels := st.levels ++
           [{ rowid := next_level_rowid st, product_id := m.product_id,
              store_id := m.store_id, quantity := quantity_change m, last_updated := now }],
         last_insert_rowid := next_level_rowid st }, next_level_rowid st) := by
  unfold record_stock_movement
  simp [hf, new_level_row, next_level_rowid]

theorem apply_level_delta_product_id (m : StockMovement) (now : Nat) (r : LevelRow) :
    (apply_level_delta m now r).product_id = r.product_id := by
  unfold apply_level_delta
  split <;> rfl

theorem apply_level_delta_store_id (m : StockMovement) (now : Nat) (r : LevelRow) :
    (apply_level_delta m now r).store_id = r.store_id := by
  unfold apply_level_delta
  split <;> rfl

theorem find_level_map_apply_delta (levels : List LevelRow) (m : StockMovement) (now : Nat)
    (p s : Int) :
    find_level (levels.map (apply_level_delta m now)) p s =
      (find_level levels p s).map (apply_level_delta m now) := by
  unfold find_level
  rw [List.find?_map]
  have hpred :
      ((fun r : LevelRow => r.product_id == p && r.store_id == s) ∘ apply_level_delta m now)
        = (fun r : LevelRow => r.product_id == p && r.store_id == s) := by
    funext r
    simp [Function.comp, apply_level_delta_product_id, apply_level_delta_store_id]
  rw [hpred]

theorem signed_sum_append (rows : List MovementRow) (r : MovementRow) (p s : Int) :
    signed_sum (rows ++ [r]) p s =
      signed_sum rows p s +
        (if r.product_id == p && r.store_id == s then movement_delta r else 0) := by
  unfold signed_sum
  rw [List.filter_append]
  by_cases h : (r.product_id == p && r.store_id == s) = true
  · simp [h]
  · simp [h]

theorem movement_row_delta (st : DBState) (m : StockMovement) (now : Nat) :
    movement_delta (movement_row st m now) = quantity_change m := by
  unfold movement_delta movement_row quantity_change
  rfl

theorem empty_ledger_invariant : ledger_invariant emptyDB := by
  intro p s
  rfl

theorem find_level_append (l1 l2 : List LevelRow) (p s : Int) :
    find_level (l1 ++ l2) p s = (find_level l1 p s).or (find_level l2 p s) := by
  unfold find_level
  exact List.find?_append

theorem get_stock_level_of_find_none (st : DBState) (p s : Int)
    (hf : find_level st.levels p s = none) :
    get_stock_level st p s =
      { product_id := p, store_id := s, quantity := 0, last_updated := none } := by
  unfold get_stock_level
  rw [hf]

theorem get_stock_level_of_find_some (st : DBState) (p s : Int) (r : LevelRow)
    (hf : find_level st.levels p s = some r) :
    get_stock_level st p s =
      { product_id := r.product_id, store_id := r.store_id, quantity := r.quantity,
        last_updated := some r.last_updated } := by
  unfold get_stock_level
  rw [hf]

theorem record_preserves_invariant (st : DBState) (m : StockMovement) (now : Nat)
    (h : ledger_invariant st) :
    ledger_invariant (record_stock_movement st m now).1 := by
  intro p s
  have hsum := signed_sum_append st.movements (movement_row st m now) p s
  have hmrowp : (movement_row st m now).product_id = m.product_id := rfl
  have hmrows : (movement_row st m now).store_id = m.store_id := rfl
  rcases hfind : find_level st.levels m.product_id m.store_id with _ | r0
  · -- INSERT branch: a fresh stock_levels row carrying the signed delta
    rw [record_stock_movement_of_find_none st m now hfind]
    by_cases hps : m.product_id = p ∧ m.store_id = s
    · obtain ⟨hp, hs⟩ := hps
      subst hp
      subst hs
      have h0 := h m.product_id m.store_id
      rw [get_stock_level_of_find_none st _ _ hfind] at h0
      have hone : find_level
          [{ rowid := next_level_rowid st, product_id := m.product_id,
             store_id := m.store_id, quantity := quantity_change m, last_updated := now }]
          m.product_id m.store_id =
          some { rowid := next_level_rowid st, product_id := m.product_id,
                 store_id := m.store_id, quantity := quantity_change m, last_updated := now } := by
        simp [find_level]
      have hnew : find_level
          (st.levels ++
            [{ rowid := next_level_rowid st, product_id := m.product_id,
               store_id := m.store_id, quantity := quantity_change m, last_updated := now }])
          m.product_id m.store_id =
          some { rowid := next_level_rowid st, product_id := m.product_id,
                 store_id := m.store_id, quantity := quantity_change m, last_updated := now } := by
        rw [find_level_append, hfind, hone]
        rfl
      rw [get_stock_level_of_find_some _ _ _ _ hnew, hsum, movement_row_delta]
      simp at h0 ⊢
      omega
    · have hcond : ((movement_row st m now).product_id == p &&
          (movement_row st m now).store_id == s) = false := by
        rw [hmrowp, hmrows]
        simp only [Bool.and_eq_false_iff, beq_eq_false_iff_ne]
        by_contra hc
        push_neg at hc
        exact hps ⟨hc.1, hc.2⟩
      have hone : find_level
          [{ rowid := next_level_rowid st, product_id := m.product_id,
             store_id := m.store_id, quantity := quantity_change m, last_updated := now }]
          p s = none := by
        simp only [find_level, List.find?]
        simp only [hmrowp, hmrows] at hcond
        simp [hcond]
      have hnew : find_level
          (st.levels ++
            [{ rowid := next_level_rowid st, product_id := m.product_id,
               store_id := m.store_id, quantity := quantity_change m, last_updated := now }])
          p s = find_level st.levels p s := by
        rw [find_level_append, hone]
        rcases find_level st.levels p s with _ | r1 <;> rfl
      rw [hsum, hcond]
      have h0 := h p s
      rcases hq : find_level st.levels p s with _ | r1
      · rw [hq] at hnew
        rw [get_stock_level_of_find_none _ _ _ hnew]
        rw [get_stock_level_of_find_none st _ _ hq] at h0
        simp at h0 ⊢
        omega
      · rw [hq] at hnew
        rw [get_stock_level_of_find_some _ _ _ _ hnew]
        rw [get_stock_level_of_find_some st _ _ _ hq] at h0
        simp at h0 ⊢
        omega
  · -- UPDATE branch: the existing stock_levels row absorbs the signed delta
    rw [record_stock_movement_of_find_some st m now r0 hfind]
    have hmap : find_level (st.levels.map (apply_level_delta m now)) p s =
        (find_level st.levels p s).map (apply_level_delta m now) :=
      find_level_map_apply_delta st.levels m now p s
    by_cases hps : m.product_id = p ∧ m.store_id = s
    · obtain ⟨hp, hs⟩ := hps
      subst hp
      subst hs
      have hr0 := List.find?_some hfind
      have hr0p : r0.product_id = m.product_id := by
        simp only [Bool.and_eq_true, beq_iff_eq] at hr0
        exact hr0.1
      have hr0s : r0.store_id = m.store_id := by
        simp only [Bool.and_eq_true, beq_iff_eq] at hr0
        exact hr0.2
      have hfr0 : apply_level_delta m now r0 =
          { r0 with quantity := r0.quantity + quantity_change m, last_updated := now } := by
        unfold apply_level_delta
        rw [if_pos]
        rw [hr0p, hr0s]
        simp
      have hnew : find_level (st.levels.map (apply_level_delta m now))
          m.product_id m.store_id =
          some { r0 with quantity := r0.quantity + quantity_change m, last_updated := now } := by
        rw [hmap, hfind]
        simp [hfr0]
      rw [get_stock_level_of_find_some _ _ _ _ hnew, hsum, movement_row_delta]
      have h0 := h m.product_id m.store_id
      rw [get_stock_level_of_find_some st _ _ _ hfind] at h0
      simp at h0 ⊢
      omega
    · have hcond : ((movement_row st m now).product_id == p &&
          (movement_row st m now).store_id == s) = false := by
        rw [hmrowp, hmrows]
        simp only [Bool.and_eq_false_iff, beq_eq_false_iff_ne]
        by_contra hc
        push_neg at hc
        exact hps ⟨hc.1, hc.2⟩
      rw [hsum, hcond]
      have h0 := h p s
      rcases hq : find_level st.levels p s with _ | r1
      · have hnew : find_level (st.levels.map (apply_level_delta m now)) p s = none := by
          rw [hmap, hq]
          rfl
        rw [get_stock_level_of_find_none _ _ _ hnew]
        rw [get_stock_level_of_find_none st _ _ hq] at h0
        simp at h0 ⊢
        omega
      · have hr1 := List.find?_some hq
        have hr1p : r1.product_id = p := by
          simp only [Bool.and_eq_true, beq_iff_eq] at hr1
          exact hr1.1
        have hr1s : r1.store_id = s := by
          simp only [Bool.and_eq_true, beq_iff_eq] at hr1
          exact hr1.2
        have hfr1 : apply_level_delta m now r1 = r1 := by
          unfold apply_level_delta
          rw [if_neg]
          rw [hr1p, hr1s]
          simp only [Bool.and_eq_true, beq_iff_eq]
          by_contra hc
          exact hps ⟨hc.1.symm, hc.2.symm⟩
        have hnew : find_level (st.levels.map (apply_level_delta m now)) p s = some r1 := by
          rw [hmap, hq]
          simp [hfr1]
        rw [get_stock_level_of_find_some _ _ _ _ hnew]
        rw [get_stock_level_of_find_some st _ _ _ hq] at h0
        simp at h0 ⊢
        omega

theorem apply_movements_invariant (ops : List (StockMovement × Nat)) (st : DBState)
    (h : ledger_invariant st) : ledger_invariant (apply_movements st ops) := by
  induction ops generalizing st with
  | nil => exact h
  | cons op rest ih => exact ih _ (record_preserves_invariant st op.1 op.2 h)

theorem insert_desc_perm (r : MovementRow) (l : List MovementRow) :
    (insert_desc r l).Perm (r :: l) := by
  induction l with
  | nil => exact List.Perm.refl _
  | cons x xs ih =>
      unfold insert_desc
      split
      · exact (ih.cons x).trans (List.Perm.swap r x xs)
      · exact List.Perm.refl _

theorem sort_desc_perm (l : List MovementRow) : (sort_desc l).Perm l := by
  induction l with
  | nil => exact List.Perm.refl _
  | cons x xs ih => exact (insert_desc_perm x (sort_desc xs)).trans (ih.cons x)

theorem insert_desc_pairwise (r : MovementRow) (l : List MovementRow)
    (h : l.Pairwise (fun a b => b.created_at ≤ a.created_at)) :
    (insert_desc r l).Pairwise (fun a b => b.created_at ≤ a.created_at) := by
  induction l with
  | nil => simp [insert_desc]
  | cons x xs ih =>
      rcases List.pairwise_cons.mp h with ⟨hx, hxs⟩
      unfold insert_desc
      split
      case isTrue hle =>
        refine List.pairwise_cons.mpr ⟨?_, ih hxs⟩
        intro b hb
        have hb2 : b ∈ r :: xs := (insert_desc_perm r xs).mem_iff.mp hb
        rcases List.mem_cons.mp hb2 with hbr | hbxs
        · subst hbr
          exact hle
        · exact hx b hbxs
      case isFalse hgt =>
        refine List.pairwise_cons.mpr ⟨?_, h⟩
        intro b hb
        rcases List.mem_cons.mp hb with hbx | hbxs
        · subst hbx
          omega
        · have := hx b hbxs
          omega

theorem sort_desc_pairwise (l : List MovementRow) :
    (sort_desc l).Pairwise (fun a b => b.created_at ≤ a.created_at) := by
  induction l with
  | nil => simp [sort_desc]
  | cons x xs ih => exact insert_desc_pairwise x (sort_desc xs) ih

theorem create_write_state (st : DBState) (m : StockMovement) (now : Nat) :
    (create_stock_movement_write st m now).1 = (record_stock_movement st m now).1 := by
  unfold create_stock_movement_write
  cases hf : List.find? (fun r => r.id == (record_stock_movement st m now).2)
      (get_stock_movements (record_stock_movement st m now).1 (some m.product_id)) <;>
    simp [hf]

theorem passes_int_filter_self (x : Int) : passes_int_filter (some x) x = true := by
  show (if x == 0 then true else x == x) = true
  split <;> simp

theorem passes_int_filter_nonzero (x v : Int) (hx : x ≠ 0) :
    passes_int_filter (some x) v = (v == x) := by
  show (if x == 0 then true else v == x) = (v == x)
  rw [if_neg]
  simp [hx]

/-! The claims. -/

/-- C1: after every finite sequence of record_stock_movement calls starting from
the empty store, every (product_id, store_id) pair's stored stock level equals
the signed sum of all recorded StockMovement rows for that pair (STOCK_IN
contributes +quantity, SALE and MANUAL_REMOVAL contribute -quantity); a pair
with no movements reads as 0 through get_stock_level's fallback. -/
theorem stock_level_equals_signed_sum (ops : List (StockMovement × Nat)) (p s : Int) :
    (get_stock_level (apply_movements emptyDB ops) p s).quantity =
      signed_sum (apply_movements emptyDB ops).movements p s :=
  apply_movements_invariant ops emptyDB empty_ledger_invariant p s

/-- C2: the claim says Database.record_stock_movement itself rejects a SALE whose
quantity exceeds the current stock with InsufficientStock, leaving both tables
unchanged, with the check inside the same atomic unit and no enforcement in the
adapters.  In the code the opposite holds: record_stock_movement applies any
movement unconditionally — a SALE of 5 against stock 0 commits and drives the
stock level to -5 — while the sufficiency check lives only in the adapter
api.create_stock_movement, as a separate unprotected read that rejects the same
request with the insufficient-stock error before calling the database. -/
theorem record_movement_has_no_sufficiency_gate :
    (record_stock_movement stTwoProducts (mvSale 1 5) 7).1.movements =
      [{ id := 1, product_id := 1, store_id := 1, quantity := 5,
         movement_type := MovementType.SALE, notes := none, created_at := 7 }] ∧
    (get_stock_level (record_stock_movement stTwoProducts (mvSale 1 5) 7).1 1 1).quantity = -5 ∧
    create_stock_movement stTwoProducts (mvSale 1 5) 7 =
      (stTwoProducts, Except.error (ApiError.insufficient_stock 0)) := by
  decide

/-- C3: the claim says the id returned by record_stock_movement identifies the
appended StockMovement row regardless of whether the pair's StockLevel row
already existed.  It fails when the StockLevel row is created by the call: the
third recording (first movement of product 2) appends the movement row with id 3
but returns 2 — cursor.lastrowid after the stock_levels INSERT is the rowid of
the new stock_levels row — and the adapter's lookup of the returned id then
yields a 500 instead of the persisted movement. -/
theorem record_movement_wrong_id_on_fresh_level :
    recFirst.2 = 1 ∧ recSecond.2 = 2 ∧ recThird.2 = 2 ∧
    recThird.1.movements.map (fun r => r.id) = [1, 2, 3] ∧
    recThird.1.movements.getLast? =
      some { id := 3, product_id := 2, store_id := 1, quantity := 4,
             movement_type := MovementType.STOCK_IN, notes := none, created_at := 3 } ∧
    (create_stock_movement recSecond.1 (mvStockIn 2 4) 3).2 =
      Except.error ApiError.retrieve_failed := by
  decide

/-- C4: the claim says every movement request with non-positive quantity fails
with InvalidQuantity and changes nothing.  The API path has no such check: a
SALE of quantity -5 against stock 0 passes the sufficiency comparison
(0 < -5 is false), is recorded, and its signed delta -(-5) RAISES the stock
level to 5. -/
theorem negative_quantity_sale_accepted :
    (create_stock_movement stTwoProducts (mvSale 1 (-5)) 3).2 =
      Except.ok { id := 1, product_id := 1, store_id := 1, quantity := -5,
                  movement_type := MovementType.SALE, notes := none, created_at := 3 } ∧
    (create_stock_movement stTwoProducts (mvSale 1 (-5)) 3).1.movements.length = 1 ∧
    (get_stock_level (create_stock_movement stTwoProducts (mvSale 1 (-5)) 3).1 1 1).quantity
      = 5 := by
  decide

/-- C5: through api.create_stock_movement, for a product whose current stock
level is 5, a SALE of quantity 6 fails with the insufficient-stock error and
leaves the state (hence the stock level) untouched, while a SALE of quantity 5
succeeds and leaves the stock level at 0. -/
theorem insufficiency_gate_at_five (st : DBState) (pid sid : Int) (now : Nat)
    (hprod : (get_product st pid).isSome = true)
    (hlevel : (get_stock_level st pid sid).quantity = 5) :
    create_stock_movement st
        { product_id := pid, store_id := sid, quantity := 6,
          movement_type := MovementType.SALE, notes := none } now =
      (st, Except.error (ApiError.insufficient_stock 5)) ∧
    (∃ row, (create_stock_movement st
        { product_id := pid, store_id := sid, quantity := 5,
          movement_type := MovementType.SALE, notes := none } now).2 = Except.ok row) ∧
    (get_stock_level (create_stock_movement st
        { product_id := pid, store_id := sid, quantity := 5,
          movement_type := MovementType.SALE, notes := none } now).1 pid sid).quantity = 0 := by
  obtain ⟨pr, hpr⟩ := Option.isSome_iff_exists.mp hprod
  rcases hf : find_level st.levels pid sid with _ | r0
  · rw [get_stock_level_of_find_none st pid sid hf] at hlevel
    simp at hlevel
  · have hq0 : r0.quantity = 5 := by
      rw [get_stock_level_of_find_some st pid sid r0 hf] at hlevel
      exact hlevel
    have hr0keys := List.find?_some hf
    rw [Bool.and_eq_true, beq_iff_eq, beq_iff_eq] at hr0keys
    have hsix : create_stock_movement st
        { product_id := pid, store_id := sid, quantity := 6,
          movement_type := MovementType.SALE, notes := none } now =
        (st, Except.error (ApiError.insufficient_stock 5)) := by
      simp [create_stock_movement, hpr, hlevel]
    have hstep : create_stock_movement st
        { product_id := pid, store_id := sid, quantity := 5,
          movement_type := MovementType.SALE, notes := none } now =
        create_stock_movement_write st
          { product_id := pid, store_id := sid, quantity := 5,
            movement_type := MovementType.SALE, notes := none } now := by
      simp [create_stock_movement, hpr, hlevel]
    refine ⟨hsix, ?_, ?_⟩
    · -- the SALE of 5 passes the gate and create_stock_movement_write returns Except.ok
      rw [hstep]
      have hrec := record_stock_movement_of_find_some st
        { product_id := pid, store_id := sid, quantity := 5,
          movement_type := MovementType.SALE, notes := none } now r0 hf
      have hmem : movement_row st
          { product_id := pid, store_id := sid, quantity := 5,
            movement_type := MovementType.SALE, notes := none } now ∈
          get_stock_movements (record_stock_movement st
            { product_id := pid, store_id := sid, quantity := 5,
              movement_type := MovementType.SALE, notes := none } now).1 (some pid) := by
        rw [hrec]
        unfold get_stock_movements
        rw [(sort_desc_perm _).mem_iff, List.mem_filter]
        constructor
        · exact List.mem_append_right _ (List.mem_singleton.mpr rfl)
        · unfold row_matches passes_type_filter
          simp [passes_int_filter_self, movement_row, passes_int_filter]
      have hsome : (List.find? (fun r => r.id == (record_stock_movement st
          { product_id := pid, store_id := sid, quantity := 5,
            movement_type := MovementType.SALE, notes := none } now).2)
          (get_stock_movements (record_stock_movement st
            { product_id := pid, store_id := sid, quantity := 5,
              movement_type := MovementType.SALE, notes := none } now).1
            (some pid))).isSome = true := by
        rw [List.find?_isSome]
        refine ⟨_, hmem, ?_⟩
        rw [hrec]
        simp [movement_row]
      obtain ⟨row, hrow⟩ := Option.isSome_iff_exists.mp hsome
      refine ⟨row, ?_⟩
      simp only [create_stock_movement_write]
      rw [hrow]
    · -- after the SALE of 5 the stock level reads 0
      rw [hstep, create_write_state]
      have hrec := record_stock_movement_of_find_some st
        { product_id := pid, store_id := sid, quantity := 5,
          movement_type := MovementType.SALE, notes := none } now r0 hf
      rw [hrec]
      have hfr0 : apply_level_delta
          { product_id := pid, store_id := sid, quantity := 5,
            movement_type := MovementType.SALE, notes := none } now r0 =
          { r0 with quantity := r0.quantity + (-5), last_updated := now } := by
        unfold apply_level_delta
        rw [if_pos]
        · rfl
        · rw [hr0keys.1, hr0keys.2]
          simp
      have hnew : find_level ((DBState.mk st.products
          (st.movements ++ [movement_row st
            { product_id := pid, store_id := sid, quantity := 5,
              movement_type := MovementType.SALE, notes := none } now])
          (st.levels.map (apply_level_delta
            { product_id := pid, store_id := sid, quantity := 5,
              movement_type := MovementType.SALE, notes := none } now))
          (next_movement_rowid st)).levels) pid sid =
          some { r0 with quantity := r0.quantity + (-5), last_updated := now } := by
        rw [find_level_map_apply_delta, hf]
        simp [hfr0]
      rw [get_stock_level_of_find_some _ _ _ _ hnew]
      simp
      omega

/-- C6: creating a product whose SKU already exists in the products table fails
with the duplicate-SKU error and returns the state unchanged, so the products
table gains no row. -/
theorem create_product_duplicate_sku (st : DBState) (name description sku : String)
    (now : Nat) (h : ∃ q ∈ st.products, q.sku = sku) :
    create_product st name description sku now = (st, Except.error ApiError.duplicate_sku) := by
  obtain ⟨q, hq, hsku⟩ := h
  have hsome : (get_product_by_sku st sku).isSome = true := by
    unfold get_product_by_sku
    rw [List.find?_isSome]
    exact ⟨q, hq, by simp [hsku]⟩
  obtain ⟨q1, hq1⟩ := Option.isSome_iff_exists.mp hsome
  unfold create_product
  rw [hq1]

/-- C5 witness: the gate theorem applied to the concrete database with stock
level 5 for product 1. -/
theorem insufficiency_gate_at_five_witness :
    (get_product stLevelFive 1).isSome = true ∧
    (get_stock_level stLevelFive 1 1).quantity = 5 ∧
    (create_stock_movement stLevelFive
        { product_id := 1, store_id := 1, quantity := 6,
          movement_type := MovementType.SALE, notes := none } 4 =
      (stLevelFive, Except.error (ApiError.insufficient_stock 5)) ∧
    (∃ row, (create_stock_movement stLevelFive
        { product_id := 1, store_id := 1, quantity := 5,
          movement_type := MovementType.SALE, notes := none } 4).2 = Except.ok row) ∧
    (get_stock_level (create_stock_movement stLevelFive
        { product_id := 1, store_id := 1, quantity := 5,
          movement_type := MovementType.SALE, notes := none } 4).1 1 1).quantity = 0) :=
  ⟨by decide, by decide, insufficiency_gate_at_five stLevelFive 1 1 4 (by decide) (by decide)⟩

/-- C6 witness: creating a product with the already-present SKU1 on the concrete
two-product database fails with the duplicate-SKU error and leaves the state as
it was. -/
theorem create_product_duplicate_sku_witness :
    (∃ q ∈ stTwoProducts.products, q.sku = "SKU1") ∧
    create_product stTwoProducts "Widget Clone" "dup" "SKU1" 9 =
      (stTwoProducts, Except.error ApiError.duplicate_sku) :=
  ⟨by decide,
   create_product_duplicate_sku stTwoProducts "Widget Clone" "dup" "SKU1" 9 (by decide)⟩

/-- C7: for a pair (product_id, store_id) with no recorded movement in a store
reached from empty by any sequence of record_stock_movement calls, there is no
stock_levels row, and get_stock_level returns quantity 0 rather than an error. -/
theorem zero_state_stock_level_read (ops : List (StockMovement × Nat)) (p s : Int)
    (h : ∀ r ∈ (apply_movements emptyDB ops).movements,
      ¬(r.product_id = p ∧ r.store_id = s)) :
    (get_stock_level (apply_movements emptyDB ops) p s).quantity = 0 := by
  rw [apply_movements_invariant ops emptyDB empty_ledger_invariant p s]
  unfold signed_sum
  have hfil : (apply_movements emptyDB ops).movements.filter
      (fun r => r.product_id == p && r.store_id == s) = [] := by
    rw [List.filter_eq_nil_iff]
    intro r hr
    simp only [Bool.and_eq_true, beq_iff_eq]
    exact h r hr
  rw [hfil]
  rfl

/-- C7 witness: after a STOCK_IN for product 1, the never-touched pair (2, 1)
reads as quantity 0. -/
theorem zero_state_stock_level_read_witness :
    (∀ r ∈ (apply_movements emptyDB [(mvStockIn 1 5, 0)]).movements,
      ¬(r.product_id = 2 ∧ r.store_id = 1)) ∧
    (get_stock_level (apply_movements emptyDB [(mvStockIn 1 5, 0)]) 2 1).quantity = 0 :=
  ⟨by decide, zero_state_stock_level_read [(mvStockIn 1 5, 0)] 2 1 (by decide)⟩

/-- C8 counterexample: the claim says list_movements with any combination of
filters returns exactly the movements satisfying their conjunction.  With the
filter product_id = 0, the Python truthiness guard `if product_id:` drops the
filter entirely, and the full movement list comes back even though no returned
row satisfies product_id = 0. -/
theorem zero_filter_returns_all_counterexample :
    get_stock_movements stLevelFive (some 0) none none =
      [{ id := 1, product_id := 1, store_id := 1, quantity := 5,
         movement_type := MovementType.STOCK_IN, notes := none, created_at := 0 }] ∧
    (∃ r ∈ get_stock_movements stLevelFive (some 0) none none, r.product_id ≠ 0) := by
  decide

/-- C8 (amended): for every combination of the optional filters in which any
supplied product_id or store_id value is nonzero (a 0 value is treated as
filter-absent by the code's truthiness guard), get_stock_movements returns
exactly the movements satisfying the conjunction of the supplied filters,
ordered by created_at descending. -/
theorem list_movements_filter_correct (st : DBState) (pid sid : Option Int)
    (mt : Option MovementType)
    (hp : ∀ x, pid = some x → x ≠ 0) (hs : ∀ x, sid = some x → x ≠ 0) :
    (get_stock_movements st pid sid mt).Perm
        (st.movements.filter (spec_filter_matches pid sid mt)) ∧
    (get_stock_movements st pid sid mt).Pairwise
        (fun a b => b.created_at ≤ a.created_at) := by
  have hfun : ∀ r, row_matches pid sid mt r = spec_filter_matches pid sid mt r := by
    intro r
    unfold row_matches spec_filter_matches passes_type_filter
    congr 1
    congr 1
    · rcases pid with _ | x
      · rfl
      · exact passes_int_filter_nonzero x r.product_id (hp x rfl)
    · rcases sid with _ | y
      · rfl
      · exact passes_int_filter_nonzero y r.store_id (hs y rfl)
  constructor
  · unfold get_stock_movements
    rw [List.filter_congr (fun x _ => hfun x)]
    exact sort_desc_perm _
  · exact sort_desc_pairwise _

/-- C8 witness: the amended filter theorem at the concrete database, with the
nonzero filter product_id = 1. -/
theorem list_movements_filter_correct_witness :
    (get_stock_movements stLevelFive (some 1) none none).Perm
        (stLevelFive.movements.filter (spec_filter_matches (some 1) none none)) ∧
    (get_stock_movements stLevelFive (some 1) none none).Pairwise
        (fun a b => b.created_at ≤ a.created_at) :=
  list_movements_filter_correct stLevelFive (some 1) none none
    (fun x hx => by cases hx; decide) (fun x hx => nomatch hx)

/-- C9: the claim says two concurrent SALE requests of quantity 1 against a
stock level of 1 can never both pass the sufficiency check — exactly one must
fail with InsufficientStock.  In the code the adapter's check and the database
write are two separate atomic steps with no transaction or lock spanning them,
so the schedule check1, check2, commit1, commit2 lets both requests observe
stock level 1, both pass, and both commit: both finish committed (neither
fails) and the stock level ends at -1. -/
theorem concurrent_sales_race_both_commit :
    (run_race (mvSale 1 1) (mvSale 1 1) 5
        { db := stLevelOne, pc1 := ReqPC.ready, pc2 := ReqPC.ready }
        [RaceAction.step1, RaceAction.step2, RaceAction.step1, RaceAction.step2]).pc1 =
      ReqPC.committed ∧
    (run_race (mvSale 1 1) (mvSale 1 1) 5
        { db := stLevelOne, pc1 := ReqPC.ready, pc2 := ReqPC.ready }
        [RaceAction.step1, RaceAction.step2, RaceAction.step1, RaceAction.step2]).pc2 =
      ReqPC.committed ∧
    (get_stock_level (run_race (mvSale 1 1) (mvSale 1 1) 5
        { db := stLevelOne, pc1 := ReqPC.ready, pc2 := ReqPC.ready }
        [RaceAction.step1, RaceAction.step2, RaceAction.step1, RaceAction.step2]).db
      1 1).quantity = -1 := by
  decide

/-- C10: get_stock_level yields two shapes: when a stock_levels row exists the
result carries last_updated (and validates against StockLevelResponse); the
zero-state fallback carries no last_updated and cannot satisfy the
StockLevelResponse contract. -/
theorem get_stock_level_two_shapes (st : DBState) (p s : Int) :
    (find_level st.levels p s = none →
       (get_stock_level st p s).last_updated = none ∧
       to_stock_level_response (get_stock_level st p s) = none) ∧
    (∀ r, find_level st.levels p s = some r →
       (get_stock_level st p s).last_updated = some r.last_updated ∧
       (to_stock_level_response (get_stock_level st p s)).isSome = true) := by
  constructor
  · intro hfnone
    rw [get_stock_level_of_find_none st p s hfnone]
    exact ⟨rfl, rfl⟩
  · intro r hfsome
    rw [get_stock_level_of_find_some st p s r hfsome]
    exact ⟨rfl, rfl⟩

/-- C10 witness: the fallback shape on the empty database and the full shape on
the database with a stock_levels row. -/
theorem get_stock_level_two_shapes_witness :
    ((get_stock_level emptyDB 1 1).last_updated = none ∧
     to_stock_level_response (get_stock_level emptyDB 1 1) = none) ∧
    ((get_stock_level stLevelFive 1 1).last_updated = some 0 ∧
     (to_stock_level_response (get_stock_level stLevelFive 1 1)).isSome = true) :=
  ⟨(get_stock_level_two_shapes emptyDB 1 1).1 rfl,
   (get_stock_level_two_shapes stLevelFive 1 1).2
     { rowid := 1, product_id := 1, store_id := 1, quantity := 5, last_updated := 0 }
     (by decide)⟩

end Bazaar
